import Mathlib

/-!
Shallow embedding of src/volcanic_terrain_generator.py: map-size
validation (TerrainConfig._validate_map_size), terrain parameter
computation (_configure_terrain_parameters), the asset-scattering
pipeline (scatter_assets, _calculate_asset_count,
_scatter_single_asset_type, _is_valid_placement,
_import_and_place_asset) and the nearest-vertex terrain sampler
(_sample_terrain_properties), together with theorems settling the
frozen claims about them.

Python's module-level `random` generator (seeded once in
VolcanicTerrainGenerator.__init__) is modelled as an explicit stream of
unit-interval draws plus a cursor, threaded through every operation in
source order.  Python floats are modelled as exact rationals.  Blender
collaborators (os.path.exists, bpy glTF loading, the terrain mesh) are
modelled as an explicit environment of oracles.
-/

namespace VolcanicTerrain

/-- The module-level random generator: an infinite stream of
unit-interval draws and a cursor.  Each call to `random.uniform`
consumes exactly one draw and advances the cursor. -/
structure Rng where
  stream : Nat → ℚ
  idx : Nat

/-- random.uniform(a, b): returns a + (b - a) * u where u is the next
unit draw, and advances the generator. -/
def rand_uniform (a b : ℚ) (r : Rng) : ℚ × Rng :=
  (a + (b - a) * r.stream r.idx, ⟨r.stream, r.idx + 1⟩)

/-- random.seed(seed): the pseudo-random function family g evaluated at
the seed, cursor reset to zero.  The source seeds exactly once per run,
in VolcanicTerrainGenerator.__init__. -/
def seed_rng (g : Nat → Nat → ℚ) (seed : Nat) : Rng := ⟨g seed, 0⟩

/-- A generator state whose pending draws all lie in the unit interval,
as random.random guarantees. -/
def UnitStream (r : Rng) : Prop := ∀ n, 0 ≤ r.stream n ∧ r.stream n ≤ 1

/-- A 3-component vector (mathutils.Vector). -/
structure Vec3 where
  x : ℚ
  y : ℚ
  z : ℚ
deriving DecidableEq

/-- Squared Euclidean norm of a vector.  The source tests
normal.length > 0, which holds exactly when the squared norm is
positive. -/
def Vec3.normSq (v : Vec3) : ℚ := v.x ^ 2 + v.y ^ 2 + v.z ^ 2

/-- Dot product (mathutils Vector.dot). -/
def Vec3.dot (v w : Vec3) : ℚ := v.x * w.x + v.y * w.y + v.z * w.z

/-- Componentwise negation. -/
def Vec3.neg (v : Vec3) : Vec3 := ⟨-v.x, -v.y, -v.z⟩

/-- The world up axis Vector((0, 0, 1)) used in _import_and_place_asset. -/
def up : Vec3 := ⟨0, 0, 1⟩

/-- The density preset table {'Low': 0.5, 'Med': 1.0, 'High': 2.0}
shared by _configure_terrain_parameters and _calculate_asset_count. -/
def density_presets : List (String × ℚ) := [("Low", 1/2), ("Med", 1), ("High", 2)]

/-- dict.get(preset, 1.0) on the density preset table. -/
def density_mult (preset : String) : ℚ := (density_presets.lookup preset).getD 1

/-- The Height parameter computed in _configure_terrain_parameters:
height_scale = max(10, map_area * 0.00005 * density_mult). -/
def configure_height_scale (sx sy : ℚ) (preset : String) : ℚ :=
  max 10 (sx * sy * (5 / 100000) * density_mult preset)

/-- The numeric value of a decimal digit character, none otherwise. -/
def digit_val (c : Char) : Option Nat :=
  if c.isDigit then some (c.toNat - '0'.toNat) else none

/-- Accumulating decimal parse of a digit run. -/
def parse_nat_aux : List Char → Nat → Option Nat
  | [], acc => some acc
  | c :: cs, acc =>
    match digit_val c with
    | some d => parse_nat_aux cs (acc * 10 + d)
    | none => none

/-- Python int() on a simple numeric string (an optional leading minus
followed by at least one decimal digit, the cases map-size strings
exercise); failure raises ValueError. -/
def parse_int : List Char → Option Int
  | [] => none
  | '-' :: cs =>
    if cs.isEmpty then none
    else (parse_nat_aux cs 0).map (fun n => -(n : Int))
  | cs => (parse_nat_aux cs 0).map (fun n => (n : Int))

/-- str.split('x'): split the character list at every 'x'. -/
def split_on_x : List Char → List (List Char)
  | [] => [[]]
  | c :: cs =>
    if c = 'x' then [] :: split_on_x cs
    else
      match split_on_x cs with
      | [] => [[c]]
      | p :: ps => (c :: p) :: ps

/-- TerrainConfig._validate_map_size: if the string contains an 'x',
split on it and parse both sides as integers; otherwise parse the whole
string as a single integer used for both dimensions.  A parse failure
raises ValueError (modelled as none, a fatal configuration error); a
successful parse stores the dimensions unchanged. -/
def validate_map_size (s : List Char) : Option (Int × Int) :=
  if s.contains 'x' then
    match split_on_x s with
    | [a, b] =>
      match parse_int a, parse_int b with
      | some mx, some my => some (mx, my)
      | _, _ => none
    | _ => none
  else
    match parse_int s with
    | some n => some (n, n)
    | none => none

/-- One entry of the ASSET_CATALOG.  file_path, scale_range and
density_weight are required by _validate_asset_catalog; height_range
and slope_max are optional and read with dict.get defaults [0, 1000]
and 45 at placement time. -/
structure AssetInfo where
  file_path : String
  scale_range : ℚ × ℚ
  density_weight : ℚ
  height_range : Option (ℚ × ℚ)
  slope_max : Option ℚ
deriving DecidableEq

/-- The dict returned by _sample_terrain_properties. -/
structure TerrainData where
  height : ℚ
  slope : ℚ
  normal : Vec3
  distance_to_nearest : ℚ
deriving DecidableEq

/-- A placed asset instance: location (x, y, height), whether the
terrain-normal alignment branch ran, the added random yaw, and the
uniform scale factor, as set in _import_and_place_asset. -/
structure Placement where
  asset_file : String
  position : ℚ × ℚ × ℚ
  aligned : Bool
  yaw : ℚ
  scale_factor : ℚ
deriving DecidableEq

/-- The external collaborators the scattering pipeline consults:
os.path.exists on an asset path, whether the glTF load into the scene
succeeds, and the terrain query _sample_terrain_properties (none when
no terrain object exists). -/
structure Env where
  file_ok : String → Bool
  load_ok : String → Bool
  sample : ℚ → ℚ → Option TerrainData

/-- Python int() applied to a real value: truncation toward zero. -/
def py_int (q : ℚ) : Int := if 0 ≤ q then ⌊q⌋ else ⌈q⌉

/-- _calculate_asset_count: base_count = max(1, int(15 * base_density *
area_factor * density_weight)), then one uniform variation draw from
[0.8, 1.2] and final_count = max(1, int(base_count * variation)). -/
def calculate_asset_count (preset : String) (sx sy : ℚ) (a : AssetInfo) (r : Rng) :
    Nat × Rng :=
  let base_density := density_mult preset
  let map_area := sx * sy
  let area_factor := map_area / 10000
  let base_count : Int := max 1 (py_int (15 * base_density * area_factor * a.density_weight))
  let variation := (rand_uniform (4/5) (6/5) r).1
  let r1 := (rand_uniform (4/5) (6/5) r).2
  let final_count : Int := max 1 (py_int ((base_count : ℚ) * variation))
  (final_count.toNat, r1)

/-- The target-count formula exactly as the claim states it, for
comparison with calculate_asset_count: max(1, round(15 *
density_multiplier * area_factor * density_weight * variation)). -/
def claimed_asset_count (preset : String) (sx sy dw v : ℚ) : Int :=
  max 1 (round (15 * density_mult preset * (sx * sy / 10000) * dw * v))

/-- The IEEE double value of math.pi. -/
def math_pi : ℚ := 884279719003555 / 281474976710656

/-- Whether _import_and_place_asset runs the terrain-normal alignment
branch: normal.length > 0 (modelled via the squared norm) and
abs(normal.dot(up)) < 0.999.  Otherwise the orientation before the
random yaw stays the identity. -/
def align_to_normal (n : Vec3) : Bool :=
  if 0 < n.normSq then
    if |n.dot up| < 999/1000 then true else false
  else false

/-- _import_and_place_asset: if the glTF load fails (exception or no
selected object) it returns None before any draw; otherwise it places
the asset at (x, y, height), applies terrain-normal alignment when
non-degenerate, then always draws a uniform yaw in [0, 2*pi) and a
uniform scale factor from scale_range. -/
def place_asset (env : Env) (a : AssetInfo) (x y : ℚ) (td : TerrainData) (r : Rng) :
    Option Placement × Rng :=
  if env.load_ok a.file_path then
    (some { asset_file := a.file_path
            position := (x, y, td.height)
            aligned := align_to_normal td.normal
            yaw := (rand_uniform 0 (2 * math_pi) r).1
            scale_factor := (rand_uniform a.scale_range.1 a.scale_range.2
              (rand_uniform 0 (2 * math_pi) r).2).1 },
     (rand_uniform a.scale_range.1 a.scale_range.2 (rand_uniform 0 (2 * math_pi) r).2).2)
  else (none, r)

/-- _is_valid_placement: reject if height is outside
height_range (default [0, 1000]), then if slope exceeds
slope_max (default 45), then if distance_to_nearest exceeds 5.0;
otherwise accept. -/
def is_valid_placement (td : TerrainData) (a : AssetInfo) : Bool :=
  if td.height < (a.height_range.getD (0, 1000)).1
      ∨ td.height > (a.height_range.getD (0, 1000)).2 then false
  else if td.slope > a.slope_max.getD 45 then false
  else if td.distance_to_nearest > 5 then false
  else true

/-- The while loop of _scatter_single_asset_type, recursing on the
remaining attempt budget (max_attempts - attempts).  Each iteration
draws x then y uniformly inside the map bounds minus the 5-unit margin,
samples the terrain, checks the placement rules, and on success places
the asset.  Returns the placements in acceptance order, the final
generator state, and the number of attempts performed. -/
def scatter_loop (env : Env) (sx sy : ℚ) (a : AssetInfo) (count : Nat) :
    Nat → Nat → Rng → List Placement × Rng × Nat
  | 0, _, r => ([], r, 0)
  | fuel + 1, placed, r =>
    if placed < count then
      let x := (rand_uniform (-(sx / 2) + 5) (sx / 2 - 5) r).1
      let r1 := (rand_uniform (-(sx / 2) + 5) (sx / 2 - 5) r).2
      let y := (rand_uniform (-(sy / 2) + 5) (sy / 2 - 5) r1).1
      let r2 := (rand_uniform (-(sy / 2) + 5) (sy / 2 - 5) r1).2
      match env.sample x y with
      | none =>
        let res := scatter_loop env sx sy a count fuel placed r2
        (res.1, res.2.1, res.2.2 + 1)
      | some td =>
        if is_valid_placement td a then
          let r3 := (place_asset env a x y td r2).2
          match (place_asset env a x y td r2).1 with
          | some p =>
            let res := scatter_loop env sx sy a count fuel (placed + 1) r3
            (p :: res.1, res.2.1, res.2.2 + 1)
          | none =>
            let res := scatter_loop env sx sy a count fuel placed r3
            (res.1, res.2.1, res.2.2 + 1)
        else
          let res := scatter_loop env sx sy a count fuel placed r2
          (res.1, res.2.1, res.2.2 + 1)
    else ([], r, 0)

/-- _scatter_single_asset_type: if the asset file does not exist the
asset type is skipped entirely (logged, zero placements); otherwise the
rejection-sampling loop runs with attempt budget count * 3. -/
def scatter_single_asset_type (env : Env) (sx sy : ℚ) (a : AssetInfo) (count : Nat)
    (r : Rng) : List Placement × Rng :=
  if env.file_ok a.file_path then
    let res := scatter_loop env sx sy a count (count * 3) 0 r
    (res.1, res.2.1)
  else ([], r)

/-- scatter_assets: for each catalog entry in order, compute the target
count (one variation draw) and run the per-asset loop, concatenating
the resulting placements. -/
def scatter_assets (env : Env) (preset : String) (sx sy : ℚ) :
    List AssetInfo → Rng → List Placement × Rng
  | [], r => ([], r)
  | a :: rest, r =>
    let cr := calculate_asset_count preset sx sy a r
    let pr := scatter_single_asset_type env sx sy a cr.1 cr.2
    let qr := scatter_assets env preset sx sy rest pr.2
    (pr.1 ++ qr.1, qr.2)

/-- One mesh vertex in world space, with its world-space normal. -/
structure Vert where
  x : ℚ
  y : ℚ
  z : ℚ
  normal : Vec3
deriving DecidableEq

/-- The squared horizontal distance computed per vertex in
_sample_terrain_properties: ((wx - x)**2 + (wy - y)**2); the source
compares and reports its square root, and sqrt is strictly monotone on
nonnegatives, so comparisons on squares select the same vertex. -/
def horiz_dist_sq (qx qy : ℚ) (v : Vert) : ℚ := (v.x - qx) ^ 2 + (v.y - qy) ^ 2

/-- The vertex scan of _sample_terrain_properties: closest_distance
starts at infinity (none), and each vertex strictly closer than the
current best replaces it, recording its squared horizontal distance,
height (z) and normal. -/
def closest_vertex_fold (qx qy : ℚ) : List Vert → Option (ℚ × ℚ × Vec3) → Option (ℚ × ℚ × Vec3)
  | [], best => best
  | v :: vs, best =>
    let d := horiz_dist_sq qx qy v
    match best with
    | none => closest_vertex_fold qx qy vs (some (d, v.z, v.normal))
    | some b =>
      if d < b.1 then closest_vertex_fold qx qy vs (some (d, v.z, v.normal))
      else closest_vertex_fold qx qy vs (some b)

/-- _sample_terrain_properties over a concrete mesh: the result of the
nearest-vertex scan, as (squared distance_to_nearest, height, normal).
The reported distance in the source is the square root of the first
component. -/
def sample_terrain_mesh (verts : List Vert) (qx qy : ℚ) : Option (ℚ × ℚ × Vec3) :=
  closest_vertex_fold qx qy verts none

/-- Modelled from the spec: the observed minimum height of the whole
surface, computed once at build time.  The source's
_sample_terrain_properties returns raw heights only; the
elevation_fraction normalization of TerrainSurface exists only in the
spec (sections 4.3 and 8), so it is modelled from the spec's words
here.  The surface is a nonempty collection h0 :: hs of sampled
heights. -/
def observed_min (h0 : ℚ) (hs : List ℚ) : ℚ := hs.foldl min h0

/-- Modelled from the spec: the observed maximum height of the whole
surface, computed once at build time (see observed_min). -/
def observed_max (h0 : ℚ) (hs : List ℚ) : ℚ := hs.foldl max h0

/-- Modelled from the spec: height normalized into [0,1] against the
observed min/max height of the whole surface. -/
def elevation_fraction (hmin hmax h : ℚ) : ℚ := (h - hmin) / (hmax - hmin)

/-! Concrete inputs used by the witness theorems. -/

/-- A catalog entry with every optional field defaulted. -/
def demo_asset : AssetInfo :=
  { file_path := "latt-bush.glb", scale_range := (4/5, 6/5),
    density_weight := 1, height_range := none, slope_max := none }

/-- A generator whose every unit draw is 1/2. -/
def demo_rng : Rng := ⟨fun _ => 1/2, 0⟩

/-- A generator whose every unit draw is 1/4. -/
def quarter_rng : Rng := ⟨fun _ => 1/4, 0⟩

/-- A terrain sample that passes every placement rule of demo_asset. -/
def demo_td : TerrainData :=
  { height := 1, slope := 0, normal := ⟨0, 0, 1⟩, distance_to_nearest := 0 }

/-- An environment where every collaborator succeeds and every sample
is demo_td. -/
def demo_env : Env :=
  { file_ok := fun _ => true, load_ok := fun _ => true,
    sample := fun _ _ => some demo_td }

/-- An environment where no asset file resolves. -/
def missing_env : Env :=
  { file_ok := fun _ => false, load_ok := fun _ => true,
    sample := fun _ _ => some demo_td }

/-! Helper lemmas shared by the claim theorems. -/

lemma rand_uniform_stream (a b : ℚ) (r : Rng) :
    ((rand_uniform a b r).2).stream = r.stream := rfl

lemma unitStream_of_stream_eq {r1 r2 : Rng} (h : r2.stream = r1.stream)
    (hr : UnitStream r1) : UnitStream r2 := by
  intro n
  rw [h]
  exact hr n

lemma rand_uniform_le {a b : ℚ} (r : Rng) (hab : a ≤ b) (hu : UnitStream r) :
    a ≤ (rand_uniform a b r).1 ∧ (rand_uniform a b r).1 ≤ b := by
  obtain ⟨h0, h1⟩ := hu r.idx
  unfold rand_uniform
  dsimp only
  constructor
  · nlinarith
  · nlinarith

lemma place_asset_stream (env : Env) (a : AssetInfo) (x y : ℚ) (td : TerrainData) (r : Rng) :
    ((place_asset env a x y td r).2).stream = r.stream := by
  unfold place_asset
  split <;> rfl

lemma place_asset_some {env : Env} {a : AssetInfo} {x y : ℚ} {td : TerrainData} {r : Rng}
    {p : Placement} (h : (place_asset env a x y td r).1 = some p) :
    p = { asset_file := a.file_path
          position := (x, y, td.height)
          aligned := align_to_normal td.normal
          yaw := (rand_uniform 0 (2 * math_pi) r).1
          scale_factor := (rand_uniform a.scale_range.1 a.scale_range.2
            (rand_uniform 0 (2 * math_pi) r).2).1 } := by
  unfold place_asset at h
  split at h
  · exact (Option.some_inj.mp h).symm
  · simp at h

/-! C7 -/

/-- C7: for every positive map size and every density preset, the
terrain height scale equals max(10, area * 0.00005 * m) where m is 0.5
for Low, 1.0 for Med and 2.0 for High. -/
theorem height_scale_formula (sx sy : ℚ) (hx : 0 < sx) (hy : 0 < sy) :
    configure_height_scale sx sy "Low" = max 10 (sx * sy * (5 / 100000) * (1/2))
    ∧ configure_height_scale sx sy "Med" = max 10 (sx * sy * (5 / 100000) * 1)
    ∧ configure_height_scale sx sy "High" = max 10 (sx * sy * (5 / 100000) * 2) :=
  ⟨rfl, rfl, rfl⟩

/-- Witness for height_scale_formula at the 100 x 200 map. -/
theorem height_scale_formula_witness :
    (0 : ℚ) < 100 ∧ (0 : ℚ) < 200 ∧
      configure_height_scale 100 200 "High" = max 10 (100 * 200 * (5 / 100000) * 2) :=
  ⟨by norm_num, by norm_num,
    (height_scale_formula 100 200 (by norm_num) (by norm_num)).2.2⟩

/-! C5 -/

/-- C5 counterexample: the claim says a parsed zero dimension makes
configuration validation fail fatally, but _validate_map_size accepts
the map size "0x0" without any positivity check. -/
theorem map_size_zero_accepted :
    validate_map_size "0x0".toList = some (0, 0) := by decide

/-- C5 amended: _validate_map_size only checks the format of the
map-size string; whenever both components parse as integers the parsed
pair is returned unchanged, even when a dimension is zero or negative —
non-positive dimensions are neither rejected nor clamped. -/
theorem map_size_no_positivity_check (s a b : List Char) (mx my : Int)
    (hc : s.contains 'x' = true) (hs : split_on_x s = [a, b])
    (ha : parse_int a = some mx) (hb : parse_int b = some my)
    (hnp : mx ≤ 0 ∨ my ≤ 0) :
    validate_map_size s = some (mx, my) := by
  unfold validate_map_size
  rw [if_pos hc, hs]
  dsimp only
  rw [ha, hb]

/-- Witness for map_size_no_positivity_check at "-3x7". -/
theorem map_size_no_positivity_check_witness :
    parse_int ['-', '3'] = some (-3)
    ∧ validate_map_size "-3x7".toList = some (-3, 7) :=
  ⟨by decide,
    map_size_no_positivity_check "-3x7".toList ['-', '3'] ['7'] (-3) 7
      (by decide) (by decide) (by decide) (by decide) (Or.inl (by norm_num))⟩

/-! C3 -/

/-- C3 counterexample: at map 100x100, density Med, weight 1 and
variation 0.9 (unit draw 1/4), _calculate_asset_count returns
max(1, int(max(1, int(15)) * 0.9)) = int(13.5) = 13, while the claimed
formula max(1, round(15 * 1 * 1 * 1 * 0.9)) = round(13.5) = 14. -/
theorem asset_count_round_counterexample :
    (calculate_asset_count "Med" 100 100 demo_asset quarter_rng).1 = 13
    ∧ claimed_asset_count "Med" 100 100 1 (9/10) = 14 := by
  constructor
  · show (max 1 (py_int ((max 1 (py_int (15 * density_mult "Med" * (100 * 100 / 10000)
        * demo_asset.density_weight)) : ℤ) * (rand_uniform (4/5) (6/5) quarter_rng).1))).toNat
      = 13
    norm_num [py_int, demo_asset, rand_uniform, quarter_rng,
      show density_mult "Med" = 1 from rfl]
    rfl
  · norm_num [claimed_asset_count, round_eq, show density_mult "Med" = 1 from rfl]

/-- C3 amended: the code truncates toward zero (Python int) instead of
rounding, and applies max(1, ·) twice: count = max(1, int(max(1,
int(15 * density_mult * area_factor * density_weight)) * variation))
with variation = 0.8 + 0.4 * u for the next unit draw u; for the
100x100 / Med / weight-1 scenario the count still lies in 12..18. -/
theorem asset_count_truncated (preset : String) (sx sy : ℚ) (a : AssetInfo) (r : Rng)
    (hu0 : 0 ≤ r.stream r.idx) (hu1 : r.stream r.idx ≤ 1) :
    (calculate_asset_count preset sx sy a r).1
      = (max 1 (py_int ((max 1 (py_int (15 * density_mult preset * (sx * sy / 10000)
            * a.density_weight)) : ℤ) * (4/5 + (2/5) * r.stream r.idx)))).toNat
    ∧ (preset = "Med" → sx = 100 → sy = 100 → a.density_weight = 1 →
        12 ≤ (calculate_asset_count preset sx sy a r).1
        ∧ (calculate_asset_count preset sx sy a r).1 ≤ 18) := by
  have hval : (rand_uniform (4/5) (6/5) r).1 = 4/5 + (2/5) * r.stream r.idx := by
    unfold rand_uniform
    dsimp only
    norm_num
  have hmain : (calculate_asset_count preset sx sy a r).1
      = (max 1 (py_int ((max 1 (py_int (15 * density_mult preset * (sx * sy / 10000)
            * a.density_weight)) : ℤ) * (4/5 + (2/5) * r.stream r.idx)))).toNat := by
    unfold calculate_asset_count
    dsimp only
    rw [hval]
  refine ⟨hmain, ?_⟩
  intro hp hsx hsy hdw
  subst hp
  subst hsx
  subst hsy
  rw [hmain, hdw]
  have hbase : (max 1 (py_int (15 * density_mult "Med" * ((100:ℚ) * 100 / 10000) * 1)) : ℤ)
      = 15 := by
    norm_num [py_int, show density_mult "Med" = 1 from rfl]
  rw [hbase]
  have hcast : (((15:ℤ) : ℚ)) = 15 := by norm_num
  rw [hcast]
  set u := r.stream r.idx with hu
  have hnn : (0:ℚ) ≤ 15 * (4/5 + (2/5) * u) := by nlinarith
  have hpy : py_int ((15:ℚ) * (4/5 + (2/5) * u)) = ⌊(15:ℚ) * (4/5 + (2/5) * u)⌋ := by
    rw [py_int, if_pos hnn]
  have h12 : (12 : ℤ) ≤ ⌊(15:ℚ) * (4/5 + (2/5) * u)⌋ := by
    rw [Int.le_floor]
    push_cast
    nlinarith
  have h18 : ⌊(15:ℚ) * (4/5 + (2/5) * u)⌋ ≤ 18 := by
    have hle : (15:ℚ) * (4/5 + (2/5) * u) ≤ 18 := by nlinarith
    have := Int.floor_le_floor hle
    simpa using this
  rw [hpy, max_eq_right (by omega : (1:ℤ) ≤ ⌊(15:ℚ) * (4/5 + (2/5) * u)⌋)]
  omega

/-- Witness for asset_count_truncated with all unit draws 1/2. -/
theorem asset_count_truncated_witness :
    0 ≤ demo_rng.stream demo_rng.idx ∧ demo_rng.stream demo_rng.idx ≤ 1
    ∧ 12 ≤ (calculate_asset_count "Med" 100 100 demo_asset demo_rng).1
    ∧ (calculate_asset_count "Med" 100 100 demo_asset demo_rng).1 ≤ 18 := by
  refine ⟨by norm_num [demo_rng], by norm_num [demo_rng], ?_, ?_⟩
  · exact ((asset_count_truncated "Med" 100 100 demo_asset demo_rng
      (by norm_num [demo_rng]) (by norm_num [demo_rng])).2 rfl rfl rfl rfl).1
  · exact ((asset_count_truncated "Med" 100 100 demo_asset demo_rng
      (by norm_num [demo_rng]) (by norm_num [demo_rng])).2 rfl rfl rfl rfl).2

/-! C6 -/

lemma observed_min_le_init (hs : List ℚ) : ∀ h0 : ℚ, observed_min h0 hs ≤ h0 := by
  induction hs with
  | nil => intro h0; exact le_refl h0
  | cons x xs ih =>
    intro h0
    calc observed_min h0 (x :: xs) = observed_min (min h0 x) xs := rfl
    _ ≤ min h0 x := ih (min h0 x)
    _ ≤ h0 := min_le_left h0 x

lemma observed_min_le (hs : List ℚ) :
    ∀ (h0 h : ℚ), (h = h0 ∨ h ∈ hs) → observed_min h0 hs ≤ h := by
  induction hs with
  | nil =>
    intro h0 h hmem
    rcases hmem with he | he
    · subst he; exact le_refl h
    · exact absurd he (List.not_mem_nil h)
  | cons x xs ih =>
    intro h0 h hmem
    rcases hmem with he | he
    · subst he
      calc observed_min h (x :: xs) = observed_min (min h x) xs := rfl
      _ ≤ min h x := observed_min_le_init xs (min h x)
      _ ≤ h := min_le_left h x
    · rcases List.mem_cons.mp he with he2 | he2
      · subst he2
        calc observed_min h0 (h :: xs) = observed_min (min h0 h) xs := rfl
        _ ≤ min h0 h := observed_min_le_init xs (min h0 h)
        _ ≤ h := min_le_right h0 h
      · exact ih (min h0 x) h (Or.inr he2)

lemma observed_max_ge_init (hs : List ℚ) : ∀ h0 : ℚ, h0 ≤ observed_max h0 hs := by
  induction hs with
  | nil => intro h0; exact le_refl h0
  | cons x xs ih =>
    intro h0
    calc h0 ≤ max h0 x := le_max_left h0 x
    _ ≤ observed_max (max h0 x) xs := ih (max h0 x)
    _ = observed_max h0 (x :: xs) := rfl

lemma observed_max_ge (hs : List ℚ) :
    ∀ (h0 h : ℚ), (h = h0 ∨ h ∈ hs) → h ≤ observed_max h0 hs := by
  induction hs with
  | nil =>
    intro h0 h hmem
    rcases hmem with he | he
    · subst he; exact le_refl h
    · exact absurd he (List.not_mem_nil h)
  | cons x xs ih =>
    intro h0 h hmem
    rcases hmem with he | he
    · subst he
      calc h ≤ max h x := le_max_left h x
      _ ≤ observed_max (max h x) xs := observed_max_ge_init xs (max h x)
      _ = observed_max h (x :: xs) := rfl
    · rcases List.mem_cons.mp he with he2 | he2
      · subst he2
        calc h ≤ max h0 h := le_max_right h0 h
        _ ≤ observed_max (max h0 h) xs := observed_max_ge_init xs (max h0 h)
        _ = observed_max h0 (h :: xs) := rfl
      · exact ih (max h0 x) h (Or.inr he2)

/-- C6 (modelled from the spec, see observed_min): for any surface with
at least one height and a non-degenerate height span, every sampled
height normalizes into [0, 1], the minimum-height sample normalizes to
0 and the maximum-height sample to 1. -/
theorem elevation_fraction_normalized (h0 : ℚ) (hs : List ℚ) (h : ℚ)
    (hmem : h = h0 ∨ h ∈ hs)
    (hlt : observed_min h0 hs < observed_max h0 hs) :
    (0 ≤ elevation_fraction (observed_min h0 hs) (observed_max h0 hs) h
      ∧ elevation_fraction (observed_min h0 hs) (observed_max h0 hs) h ≤ 1)
    ∧ elevation_fraction (observed_min h0 hs) (observed_max h0 hs) (observed_min h0 hs) = 0
    ∧ elevation_fraction (observed_min h0 hs) (observed_max h0 hs) (observed_max h0 hs) = 1 := by
  have hle1 : observed_min h0 hs ≤ h := observed_min_le hs h0 h hmem
  have hle2 : h ≤ observed_max h0 hs := observed_max_ge hs h0 h hmem
  have hd : 0 < observed_max h0 hs - observed_min h0 hs := sub_pos.mpr hlt
  unfold elevation_fraction
  refine ⟨⟨?_, ?_⟩, ?_, ?_⟩
  · exact div_nonneg (sub_nonneg.mpr hle1) (le_of_lt hd)
  · rw [div_le_one hd]; linarith
  · rw [sub_self, zero_div]
  · rw [div_self (ne_of_gt hd)]

/-- Witness for elevation_fraction_normalized on heights 0, 2, 1. -/
theorem elevation_fraction_normalized_witness :
    ((1:ℚ) = 0 ∨ (1:ℚ) ∈ [(2:ℚ), 1])
    ∧ observed_min 0 [(2:ℚ), 1] < observed_max 0 [(2:ℚ), 1]
    ∧ 0 ≤ elevation_fraction (observed_min 0 [(2:ℚ), 1]) (observed_max 0 [(2:ℚ), 1]) 1
    ∧ elevation_fraction (observed_min 0 [(2:ℚ), 1]) (observed_max 0 [(2:ℚ), 1]) 1 ≤ 1 := by
  have hmem : ((1:ℚ) = 0 ∨ (1:ℚ) ∈ [(2:ℚ), 1]) := Or.inr (by simp)
  have hlt : observed_min 0 [(2:ℚ), 1] < observed_max 0 [(2:ℚ), 1] := by
    norm_num [observed_min, observed_max, List.foldl, min_def, max_def]
  have hth := elevation_fraction_normalized 0 [(2:ℚ), 1] 1 hmem hlt
  exact ⟨hmem, hlt, hth.1.1, hth.1.2⟩

/-! C9 -/

/-- C9: the degeneracy test in _import_and_place_asset takes the
absolute value of normal.dot(up), so alignment is skipped for
near-anti-parallel normals exactly as for near-parallel ones (the test
is invariant under negating the normal, and both axis-aligned poles
skip); and every placement actually produced carries the random yaw
draw and the uniform scale draw, regardless of the degeneracy. -/
theorem alignment_degeneracy_absolute :
    (∀ n : Vec3, align_to_normal n.neg = align_to_normal n)
    ∧ align_to_normal ⟨0, 0, 1⟩ = false
    ∧ align_to_normal ⟨0, 0, -1⟩ = false
    ∧ (∀ (env : Env) (a : AssetInfo) (x y : ℚ) (td : TerrainData) (r : Rng) (p : Placement),
        (place_asset env a x y td r).1 = some p →
        p.yaw = (rand_uniform 0 (2 * math_pi) r).1
        ∧ p.scale_factor = (rand_uniform a.scale_range.1 a.scale_range.2
            (rand_uniform 0 (2 * math_pi) r).2).1) := by
  refine ⟨?_, ?_, ?_, ?_⟩
  · intro n
    have hn : n.neg.normSq = n.normSq := by
      simp only [Vec3.neg, Vec3.normSq]
      ring
    have hd : |Vec3.dot n.neg up| = |Vec3.dot n up| := by
      rw [show Vec3.dot n.neg up = -(Vec3.dot n up) by
        simp only [Vec3.neg, Vec3.dot, up]; ring]
      exact abs_neg (Vec3.dot n up)
    rw [align_to_normal, align_to_normal, hn, hd]
  · norm_num [align_to_normal, Vec3.normSq, Vec3.dot, up, abs]
  · norm_num [align_to_normal, Vec3.normSq, Vec3.dot, up, abs]
  · intro env a x y td r p h
    have hp := place_asset_some h
    rw [hp]
    exact ⟨rfl, rfl⟩

/-- Witness for alignment_degeneracy_absolute: a concrete successful
placement carries exactly the yaw and scale draws. -/
theorem alignment_degeneracy_absolute_witness :
    (place_asset demo_env demo_asset 0 0 demo_td demo_rng).1
      = some { asset_file := "latt-bush.glb", position := (0, 0, 1),
               aligned := align_to_normal ⟨0, 0, 1⟩,
               yaw := (rand_uniform 0 (2 * math_pi) demo_rng).1,
               scale_factor := (rand_uniform (4/5) (6/5)
                 (rand_uniform 0 (2 * math_pi) demo_rng).2).1 }
    ∧ ({ asset_file := "latt-bush.glb", position := (0, 0, 1),
         aligned := align_to_normal ⟨0, 0, 1⟩,
         yaw := (rand_uniform 0 (2 * math_pi) demo_rng).1,
         scale_factor := (rand_uniform (4/5) (6/5)
           (rand_uniform 0 (2 * math_pi) demo_rng).2).1 } : Placement).yaw
        = (rand_uniform 0 (2 * math_pi) demo_rng).1 := by
  refine ⟨rfl, ?_⟩
  exact (alignment_degeneracy_absolute.2.2.2 demo_env demo_asset 0 0 demo_td demo_rng _ rfl).1

/-! C10 -/

lemma closest_fold_min (qx qy : ℚ) :
    ∀ (vs : List Vert) (b : ℚ × ℚ × Vec3),
      ∃ res, closest_vertex_fold qx qy vs (some b) = some res
        ∧ (res = b ∨ ∃ v ∈ vs, res = (horiz_dist_sq qx qy v, v.z, v.normal))
        ∧ res.1 ≤ b.1
        ∧ ∀ v ∈ vs, res.1 ≤ horiz_dist_sq qx qy v := by
  intro vs
  induction vs with
  | nil =>
    intro b
    exact ⟨b, rfl, Or.inl rfl, le_refl _, by simp⟩
  | cons v vs ih =>
    intro b
    by_cases hlt : horiz_dist_sq qx qy v < b.1
    · obtain ⟨res, h1, h2, h3, h4⟩ := ih (horiz_dist_sq qx qy v, v.z, v.normal)
      refine ⟨res, ?_, ?_, ?_, ?_⟩
      · rw [closest_vertex_fold]
        rw [if_pos hlt]
        exact h1
      · rcases h2 with he | ⟨w, hw, he⟩
        · exact Or.inr ⟨v, List.mem_cons_self v vs, he⟩
        · exact Or.inr ⟨w, List.mem_cons_of_mem v hw, he⟩
      · exact le_trans h3 (le_of_lt hlt)
      · intro w hw
        rcases List.mem_cons.mp hw with he | he
        · subst he; exact h3
        · exact h4 w he
    · obtain ⟨res, h1, h2, h3, h4⟩ := ih b
      refine ⟨res, ?_, ?_, h3, ?_⟩
      · rw [closest_vertex_fold]
        rw [if_neg hlt]
        exact h1
      · rcases h2 with he | ⟨w, hw, he⟩
        · exact Or.inl he
        · exact Or.inr ⟨w, List.mem_cons_of_mem v hw, he⟩
      · intro w hw
        rcases List.mem_cons.mp hw with he | he
        · subst he; exact le_trans h3 (le_of_not_lt hlt)
        · exact h4 w he

/-- C10: the nearest-vertex scan of _sample_terrain_properties selects
a vertex minimizing the horizontal (x, y) squared distance over all
mesh vertices, reports that distance (the source returns its square
root, and sqrt is strictly monotone on nonnegatives, so both the
comparisons and the reported minimum agree) together with the vertex
height and normal, and the distance ignores the vertical coordinate
entirely. -/
theorem nearest_vertex_horizontal (qx qy : ℚ) (v0 : Vert) (vs : List Vert) :
    (∀ v w : Vert, v.x = w.x → v.y = w.y →
      horiz_dist_sq qx qy v = horiz_dist_sq qx qy w)
    ∧ ∃ w, w ∈ v0 :: vs
        ∧ sample_terrain_mesh (v0 :: vs) qx qy
            = some (horiz_dist_sq qx qy w, w.z, w.normal)
        ∧ ∀ v ∈ v0 :: vs, horiz_dist_sq qx qy w ≤ horiz_dist_sq qx qy v := by
  constructor
  · intro v w hx hy
    simp only [horiz_dist_sq, hx, hy]
  · obtain ⟨res, h1, h2, h3, h4⟩ :=
      closest_fold_min qx qy vs (horiz_dist_sq qx qy v0, v0.z, v0.normal)
    have hstep : sample_terrain_mesh (v0 :: vs) qx qy
        = closest_vertex_fold qx qy vs (some (horiz_dist_sq qx qy v0, v0.z, v0.normal)) := rfl
    rcases h2 with he | ⟨w, hw, he⟩
    · refine ⟨v0, List.mem_cons_self v0 vs, ?_, ?_⟩
      · rw [hstep, h1, he]
      · intro v hv
        rcases List.mem_cons.mp hv with hv2 | hv2
        · subst hv2
          exact le_refl _
        · have h5 := h4 v hv2
          rw [he] at h5
          exact h5
    · refine ⟨w, List.mem_cons_of_mem v0 hw, ?_, ?_⟩
      · rw [hstep, h1, he]
      · intro v hv
        rcases List.mem_cons.mp hv with hv2 | hv2
        · subst hv2
          have h5 := h3
          rw [he] at h5
          exact h5
        · have h5 := h4 v hv2
          rw [he] at h5
          exact h5

/-- Witness for nearest_vertex_horizontal: the horizontal distance of
two vertices differing only in height coincides. -/
theorem nearest_vertex_horizontal_witness :
    horiz_dist_sq 0 0 ⟨1, 2, 9, up⟩ = horiz_dist_sq 0 0 ⟨1, 2, -9, up⟩ :=
  (nearest_vertex_horizontal 0 0 ⟨1, 2, 9, up⟩ []).1 ⟨1, 2, 9, up⟩ ⟨1, 2, -9, up⟩ rfl rfl

/-! Stream preservation: every pipeline stage only advances the cursor
of the single seeded generator, never replacing its stream. -/

lemma scatter_loop_stream (env : Env) (sx sy : ℚ) (a : AssetInfo) (count : Nat) :
    ∀ (fuel placed : Nat) (r : Rng),
      ((scatter_loop env sx sy a count fuel placed r).2.1).stream = r.stream := by
  intro fuel
  induction fuel with
  | zero => intro placed r; rfl
  | succ n ih =>
    intro placed r
    rw [scatter_loop]
    split
    · dsimp only
      split
      · dsimp only
        rw [ih]
        rfl
      · split
        · split
          · dsimp only
            rw [ih, place_asset_stream]
            rfl
          · dsimp only
            rw [ih, place_asset_stream]
            rfl
        · dsimp only
          rw [ih]
          rfl
    · rfl

lemma scatter_single_stream (env : Env) (sx sy : ℚ) (a : AssetInfo) (count : Nat) (r : Rng) :
    ((scatter_single_asset_type env sx sy a count r).2).stream = r.stream := by
  unfold scatter_single_asset_type
  split
  · dsimp only
    exact scatter_loop_stream env sx sy a count (count * 3) 0 r
  · rfl

lemma calculate_asset_count_stream (preset : String) (sx sy : ℚ) (a : AssetInfo) (r : Rng) :
    ((calculate_asset_count preset sx sy a r).2).stream = r.stream := rfl

lemma scatter_assets_stream (env : Env) (preset : String) (sx sy : ℚ) :
    ∀ (catalog : List AssetInfo) (r : Rng),
      ((scatter_assets env preset sx sy catalog r).2).stream = r.stream := by
  intro catalog
  induction catalog with
  | nil => intro r; rfl
  | cons a rest ih =>
    intro r
    rw [scatter_assets]
    dsimp only
    rw [ih, scatter_single_stream, calculate_asset_count_stream]

/-! C1 -/

/-- C1: two complete runs of the scattering pipeline from the same
configuration and the same once-per-run seeding produce identical
placement sequences (same positions, yaws, scales, in the same order),
and a run only ever consumes draws from that single seeded stream — it
never replaces the stream, only advances its cursor through the fixed
consumption order encoded in scatter_assets. -/
theorem scatter_assets_deterministic (env : Env) (preset : String) (sx sy : ℚ)
    (catalog : List AssetInfo) (g : Nat → Nat → ℚ) (seed : Nat) (r1 r2 : Rng)
    (h1 : r1 = seed_rng g seed) (h2 : r2 = seed_rng g seed) :
    scatter_assets env preset sx sy catalog r1 = scatter_assets env preset sx sy catalog r2
    ∧ ((scatter_assets env preset sx sy catalog r1).2).stream = r1.stream := by
  subst h1
  subst h2
  exact ⟨rfl, scatter_assets_stream env preset sx sy catalog _⟩

/-- Witness for scatter_assets_deterministic at seed 42. -/
theorem scatter_assets_deterministic_witness :
    seed_rng (fun _ _ => 1/2) 42 = seed_rng (fun _ _ => 1/2) 42
    ∧ scatter_assets demo_env "Med" 100 100 [demo_asset] (seed_rng (fun _ _ => 1/2) 42)
        = scatter_assets demo_env "Med" 100 100 [demo_asset] (seed_rng (fun _ _ => 1/2) 42) :=
  ⟨rfl, (scatter_assets_deterministic demo_env "Med" 100 100 [demo_asset]
    (fun _ _ => 1/2) 42 _ _ rfl rfl).1⟩

/-! C2 -/

lemma is_valid_placement_iff (td : TerrainData) (a : AssetInfo) :
    is_valid_placement td a = true ↔
      ((a.height_range.getD (0, 1000)).1 ≤ td.height
        ∧ td.height ≤ (a.height_range.getD (0, 1000)).2
        ∧ td.slope ≤ a.slope_max.getD 45
        ∧ td.distance_to_nearest ≤ 5) := by
  unfold is_valid_placement
  by_cases h1 : td.height < (a.height_range.getD (0, 1000)).1
      ∨ td.height > (a.height_range.getD (0, 1000)).2
  · rw [if_pos h1]
    simp only [Bool.false_eq_true, false_iff]
    rintro ⟨c1, c2, c3, c4⟩
    rcases h1 with h | h <;> linarith
  · rw [if_neg h1]
    push_neg at h1
    by_cases h2 : td.slope > a.slope_max.getD 45
    · rw [if_pos h2]
      simp only [Bool.false_eq_true, false_iff]
      rintro ⟨c1, c2, c3, c4⟩
      linarith
    · rw [if_neg h2]
      push_neg at h2
      by_cases h3 : td.distance_to_nearest > 5
      · rw [if_pos h3]
        simp only [Bool.false_eq_true, false_iff]
        rintro ⟨c1, c2, c3, c4⟩
        linarith
      · rw [if_neg h3]
        push_neg at h3
        simp only [true_iff]
        exact ⟨h1.1, h1.2, h2, h3⟩

lemma scatter_loop_mem (env : Env) (sx sy : ℚ) (a : AssetInfo) (count : Nat)
    (hsx : 10 ≤ sx) (hsy : 10 ≤ sy) :
    ∀ (fuel placed : Nat) (r : Rng), UnitStream r →
      ∀ p ∈ (scatter_loop env sx sy a count fuel placed r).1,
        ∃ x y td, (-(sx / 2) + 5 ≤ x ∧ x ≤ sx / 2 - 5)
          ∧ (-(sy / 2) + 5 ≤ y ∧ y ≤ sy / 2 - 5)
          ∧ env.sample x y = some td
          ∧ is_valid_placement td a = true
          ∧ p.position = (x, y, td.height) := by
  intro fuel
  induction fuel with
  | zero =>
    intro placed r hr p hp
    rw [scatter_loop] at hp
    exact absurd hp (List.not_mem_nil p)
  | succ n ih =>
    intro placed r hr p hp
    rw [scatter_loop] at hp
    split at hp
    · dsimp only at hp
      have hxb := rand_uniform_le r (by linarith : -(sx / 2) + 5 ≤ sx / 2 - 5) hr
      have hr1 : UnitStream (rand_uniform (-(sx / 2) + 5) (sx / 2 - 5) r).2 :=
        unitStream_of_stream_eq rfl hr
      have hyb := rand_uniform_le _ (by linarith : -(sy / 2) + 5 ≤ sy / 2 - 5) hr1
      have hr2 : UnitStream (rand_uniform (-(sy / 2) + 5) (sy / 2 - 5)
          (rand_uniform (-(sx / 2) + 5) (sx / 2 - 5) r).2).2 :=
        unitStream_of_stream_eq rfl hr
      split at hp
      · dsimp only at hp
        exact ih placed _ hr2 p hp
      · next td hsmp =>
        split at hp
        · next hv =>
          split at hp
          · next p0 hplace =>
            dsimp only at hp
            rcases List.mem_cons.mp hp with he | he
            · subst he
              refine ⟨(rand_uniform (-(sx / 2) + 5) (sx / 2 - 5) r).1,
                (rand_uniform (-(sy / 2) + 5) (sy / 2 - 5)
                  (rand_uniform (-(sx / 2) + 5) (sx / 2 - 5) r).2).1,
                td, hxb, hyb, hsmp, hv, ?_⟩
              rw [place_asset_some hplace]
            · exact ih (placed + 1) _
                (unitStream_of_stream_eq (place_asset_stream env a _ _ td _) hr2) p he
          · next hplace =>
            dsimp only at hp
            exact ih placed _
              (unitStream_of_stream_eq (place_asset_stream env a _ _ td _) hr2) p hp
        · next hv =>
          dsimp only at hp
          exact ih placed _ hr2 p hp
    · exact absurd hp (List.not_mem_nil p)

/-- C2: a candidate is accepted by _is_valid_placement exactly when its
sampled height lies in the asset's height_range (default [0, 1000]),
its slope is at most slope_max (default 45) and its
distance_to_nearest is at most 5; and every placement the
rejection-sampling loop emits was sampled at a position drawn inside
the map bounds shrunk by the 5-unit edge margin whose terrain sample
passes all three rules, the placement sitting at exactly that sampled
position and height. -/
theorem placement_rules_sound (env : Env) (sx sy : ℚ) (a : AssetInfo) (td : TerrainData)
    (count fuel placed : Nat) (r : Rng)
    (hsx : 10 ≤ sx) (hsy : 10 ≤ sy) (hr : UnitStream r) :
    (is_valid_placement td a = true ↔
      ((a.height_range.getD (0, 1000)).1 ≤ td.height
        ∧ td.height ≤ (a.height_range.getD (0, 1000)).2
        ∧ td.slope ≤ a.slope_max.getD 45
        ∧ td.distance_to_nearest ≤ 5))
    ∧ ∀ p ∈ (scatter_loop env sx sy a count fuel placed r).1,
        ∃ x y td2, (-(sx / 2) + 5 ≤ x ∧ x ≤ sx / 2 - 5)
          ∧ (-(sy / 2) + 5 ≤ y ∧ y ≤ sy / 2 - 5)
          ∧ env.sample x y = some td2
          ∧ is_valid_placement td2 a = true
          ∧ p.position = (x, y, td2.height) :=
  ⟨is_valid_placement_iff td a, scatter_loop_mem env sx sy a count hsx hsy fuel placed r hr⟩

/-- Witness for placement_rules_sound on the demo configuration. -/
theorem placement_rules_sound_witness :
    (10 : ℚ) ≤ 100 ∧ UnitStream demo_rng
    ∧ (is_valid_placement demo_td demo_asset = true ↔
        ((demo_asset.height_range.getD (0, 1000)).1 ≤ demo_td.height
          ∧ demo_td.height ≤ (demo_asset.height_range.getD (0, 1000)).2
          ∧ demo_td.slope ≤ demo_asset.slope_max.getD 45
          ∧ demo_td.distance_to_nearest ≤ 5)) := by
  have hu : UnitStream demo_rng := by
    intro n
    constructor <;> norm_num [demo_rng]
  exact ⟨by norm_num, hu,
    (placement_rules_sound demo_env 100 100 demo_asset demo_td 1 3 0 demo_rng
      (by norm_num) (by norm_num) hu).1⟩

/-! C4 -/

lemma scatter_loop_length_le (env : Env) (sx sy : ℚ) (a : AssetInfo) (count : Nat) :
    ∀ (fuel placed : Nat) (r : Rng), placed ≤ count →
      (scatter_loop env sx sy a count fuel placed r).1.length + placed ≤ count := by
  intro fuel
  induction fuel with
  | zero =>
    intro placed r hle
    rw [scatter_loop]
    simpa using hle
  | succ n ih =>
    intro placed r hle
    rw [scatter_loop]
    split
    · next hpc =>
      dsimp only
      split
      · dsimp only
        exact ih placed _ hle
      · split
        · split
          · dsimp only
            rw [List.length_cons, Nat.add_assoc, Nat.add_comm 1 placed]
            exact ih (placed + 1) _ hpc
          · dsimp only
            exact ih placed _ hle
        · dsimp only
          exact ih placed _ hle
    · simpa using hle

lemma scatter_loop_attempts_le (env : Env) (sx sy : ℚ) (a : AssetInfo) (count : Nat) :
    ∀ (fuel placed : Nat) (r : Rng),
      (scatter_loop env sx sy a count fuel placed r).2.2 ≤ fuel := by
  intro fuel
  induction fuel with
  | zero => intro placed r; simp [scatter_loop]
  | succ n ih =>
    intro placed r
    rw [scatter_loop]
    split
    · dsimp only
      split
      · dsimp only
        exact Nat.succ_le_succ (ih placed _)
      · split
        · split
          · dsimp only
            exact Nat.succ_le_succ (ih (placed + 1) _)
          · dsimp only
            exact Nat.succ_le_succ (ih placed _)
        · dsimp only
          exact Nat.succ_le_succ (ih placed _)
    · exact Nat.zero_le _

lemma scatter_loop_done (env : Env) (sx sy : ℚ) (a : AssetInfo) (count : Nat) :
    ∀ (fuel : Nat) (r : Rng), scatter_loop env sx sy a count fuel count r = ([], r, 0) := by
  intro fuel r
  cases fuel with
  | zero => rfl
  | succ n =>
    rw [scatter_loop]
    rw [if_neg (lt_irrefl count)]

lemma scatter_loop_allvalid (env : Env) (sx sy : ℚ) (a : AssetInfo) (count : Nat)
    (hall : ∀ x y, ∃ td, env.sample x y = some td ∧ is_valid_placement td a = true)
    (himp : env.load_ok a.file_path = true) :
    ∀ (fuel placed : Nat) (r : Rng),
      (scatter_loop env sx sy a count fuel placed r).1.length
        = min (count - placed) fuel := by
  intro fuel
  induction fuel with
  | zero =>
    intro placed r
    rw [scatter_loop]
    simp
  | succ n ih =>
    intro placed r
    by_cases hpc : placed < count
    · rw [scatter_loop, if_pos hpc]
      dsimp only
      obtain ⟨td, htd, hv⟩ := hall ((rand_uniform (-(sx / 2) + 5) (sx / 2 - 5) r).1)
        ((rand_uniform (-(sy / 2) + 5) (sy / 2 - 5)
          (rand_uniform (-(sx / 2) + 5) (sx / 2 - 5) r).2).1)
      rw [htd]
      dsimp only
      rw [if_pos hv]
      rw [show (place_asset env a ((rand_uniform (-(sx / 2) + 5) (sx / 2 - 5) r).1)
          ((rand_uniform (-(sy / 2) + 5) (sy / 2 - 5)
            (rand_uniform (-(sx / 2) + 5) (sx / 2 - 5) r).2).1) td
          ((rand_uniform (-(sy / 2) + 5) (sy / 2 - 5)
            (rand_uniform (-(sx / 2) + 5) (sx / 2 - 5) r).2).2)).1
          = some { asset_file := a.file_path
                   position := (_, _, td.height)
                   aligned := align_to_normal td.normal
                   yaw := _
                   scale_factor := _ } by
        unfold place_asset
        rw [if_pos himp]]
      dsimp only
      rw [List.length_cons, ih (placed + 1)]
      omega
    · rw [scatter_loop, if_neg hpc]
      have : count - placed = 0 := by omega
      simp [this]

/-- C4: the rejection-sampling loop with budget 3 * target_count always
terminates with at most target_count placements after at most
3 * target_count attempts; it returns immediately once placed reaches
target_count; exhausting the budget under-places silently (the loop
total function just returns the shorter list); and when every candidate
is valid and loading succeeds, exactly target_count placements are
produced. -/
theorem scatter_loop_terminates (env : Env) (sx sy : ℚ) (a : AssetInfo) (count : Nat)
    (r : Rng) :
    (scatter_loop env sx sy a count (count * 3) 0 r).1.length ≤ count
    ∧ (scatter_loop env sx sy a count (count * 3) 0 r).2.2 ≤ count * 3
    ∧ (∀ (fuel : Nat) (r2 : Rng), scatter_loop env sx sy a count fuel count r2 = ([], r2, 0))
    ∧ ((∀ x y, ∃ td, env.sample x y = some td ∧ is_valid_placement td a = true) →
        env.load_ok a.file_path = true →
        (scatter_loop env sx sy a count (count * 3) 0 r).1.length = count) := by
  refine ⟨?_, scatter_loop_attempts_le env sx sy a count (count * 3) 0 r,
    scatter_loop_done env sx sy a count, ?_⟩
  · have := scatter_loop_length_le env sx sy a count (count * 3) 0 r (Nat.zero_le count)
    omega
  · intro hall himp
    rw [scatter_loop_allvalid env sx sy a count hall himp (count * 3) 0 r]
    omega

/-- Witness for scatter_loop_terminates: with an always-valid terrain
stub and successful loads, the loop places exactly the target count. -/
theorem scatter_loop_terminates_witness :
    (scatter_loop demo_env 100 100 demo_asset 5 (5 * 3) 0 demo_rng).1.length = 5 :=
  (scatter_loop_terminates demo_env 100 100 demo_asset 5 demo_rng).2.2.2
    (fun _ _ => ⟨demo_td, rfl, rfl⟩) rfl

/-! C8 -/

lemma scatter_loop_all_rejected (env : Env) (sx sy : ℚ) (a : AssetInfo) (count : Nat)
    (hrej : ∀ x y td, env.sample x y = some td → is_valid_placement td a = false) :
    ∀ (fuel placed : Nat) (r : Rng),
      (scatter_loop env sx sy a count fuel placed r).1 = [] := by
  intro fuel
  induction fuel with
  | zero => intro placed r; rfl
  | succ n ih =>
    intro placed r
    rw [scatter_loop]
    split
    · dsimp only
      split
      · dsimp only
        exact ih placed _
      · next td hsmp =>
        have hv := hrej _ _ td hsmp
        rw [hv]
        rw [if_neg (by simp : ¬ (false = true))]
        dsimp only
        exact ih placed _
    · rfl

lemma scatter_assets_append (env : Env) (preset : String) (sx sy : ℚ) :
    ∀ (l1 l2 : List AssetInfo) (r : Rng),
      scatter_assets env preset sx sy (l1 ++ l2) r
        = ((scatter_assets env preset sx sy l1 r).1
            ++ (scatter_assets env preset sx sy l2
                 (scatter_assets env preset sx sy l1 r).2).1,
           (scatter_assets env preset sx sy l2
                 (scatter_assets env preset sx sy l1 r).2).2) := by
  intro l1
  induction l1 with
  | nil =>
    intro l2 r
    simp [scatter_assets]
  | cons a l1 ih =>
    intro l2 r
    simp only [List.cons_append, scatter_assets]
    simp only [List.append_eq_has_append]
    simp only [ih]
    simp [List.append_assoc]

/-- C8: an asset whose file reference does not resolve is skipped
entirely — the per-asset scatter returns no placements and leaves the
generator untouched; a rejected attempt is likewise only skipped (all
rejections yield the empty placement list, never an error value, the
loop being a total function); and the whole run still processes every
other catalog entry, its output being exactly the concatenation of the
placements before and after the missing asset (whose count draw is
still consumed). -/
theorem missing_asset_skipped (env : Env) (preset : String) (sx sy : ℚ)
    (a : AssetInfo) (l1 l2 : List AssetInfo) (r : Rng)
    (hmiss : env.file_ok a.file_path = false) :
    (∀ (count : Nat) (r2 : Rng), scatter_single_asset_type env sx sy a count r2 = ([], r2))
    ∧ (∀ (count fuel placed : Nat) (r2 : Rng),
        (∀ x y td, env.sample x y = some td → is_valid_placement td a = false) →
        (scatter_loop env sx sy a count fuel placed r2).1 = [])
    ∧ scatter_assets env preset sx sy (l1 ++ a :: l2) r
        = ((scatter_assets env preset sx sy l1 r).1
            ++ (scatter_assets env preset sx sy l2
                 (calculate_asset_count preset sx sy a
                   (scatter_assets env preset sx sy l1 r).2).2).1,
           (scatter_assets env preset sx sy l2
                 (calculate_asset_count preset sx sy a
                   (scatter_assets env preset sx sy l1 r).2).2).2) := by
  have hskip : ∀ (count : Nat) (r2 : Rng),
      scatter_single_asset_type env sx sy a count r2 = ([], r2) := by
    intro count r2
    unfold scatter_single_asset_type
    rw [hmiss]
    rw [if_neg (by simp : ¬ (false = true))]
  refine ⟨hskip, ?_, ?_⟩
  · intro count fuel placed r2 hrej
    exact scatter_loop_all_rejected env sx sy a count hrej fuel placed r2
  · rw [scatter_assets_append env preset sx sy l1 (a :: l2) r]
    rw [scatter_assets]
    dsimp only
    rw [hskip]
    simp

/-- Witness for missing_asset_skipped: a concrete unresolvable asset
produces zero placements. -/
theorem missing_asset_skipped_witness :
    missing_env.file_ok demo_asset.file_path = false
    ∧ scatter_single_asset_type missing_env 100 100 demo_asset 7 demo_rng
        = ([], demo_rng) :=
  ⟨rfl, (missing_asset_skipped missing_env "Med" 100 100 demo_asset [] [] demo_rng rfl).1
    7 demo_rng⟩

end VolcanicTerrain
